import Mathlib

/-!
Shallow embedding of the ngx-selection-list library:
a ListOption directive (per-element selectable behaviour) and a
SelectionListDirective (container with an internal CDK SelectionModel),
from projects/ngx-selection-list/src/lib.

Values flowing through the library are TypeScript values compared with
strict equality; the library is generic in T.  We instantiate T with a
small JS value domain that contains both nil values (null, undefined)
and infinitely many distinct non-nil values (numbers), which is what the
nil-guards and identity comparisons in the source distinguish.
-/

/-- A JS value: undefined, null, or a number.  JSV.undef also stands for
the result of reading a missing array index. -/
inductive JSV where
  | undef : JSV
  | null : JSV
  | num : Int → JSV
deriving DecidableEq, Repr

/-- From utils/nil.ts: isNil(value) = value == null, true exactly for
null and undefined. -/
def isNil : JSV → Bool
  | JSV.undef => true
  | JSV.null => true
  | JSV.num _ => false

/-- From utils/nil.ts: isNonNil(value) = !isNil(value). -/
def isNonNil (v : JSV) : Bool :=
  !isNil v

/-- The CDK SelectionModel held by the container: an arity flag fixed at
construction and an insertion-ordered set of selected values (the
selected getter of the CDK model returns them in insertion order). -/
structure SelectionModel where
  multiple : Bool
  selection : List JSV
deriving DecidableEq, Repr

def SelectionModel.isSelected (m : SelectionModel) (v : JSV) : Bool :=
  decide (v ∈ m.selection)

def SelectionModel.isEmpty (m : SelectionModel) : Bool :=
  m.selection.isEmpty

def SelectionModel.hasValue (m : SelectionModel) : Bool :=
  !m.isEmpty

/-- CDK SelectionModel._unmarkAll: clear the selection. -/
def unmarkAll (m : SelectionModel) : SelectionModel :=
  { m with selection := [] }

/-- CDK SelectionModel._markSelected(value): if the value is not yet
selected, first clear everything when in single mode, then add it. -/
def markSelected (m : SelectionModel) (v : JSV) : SelectionModel :=
  if m.isSelected v then m
  else
    let m1 := if !m.multiple then unmarkAll m else m
    if m1.isSelected v then m1 else { m1 with selection := m1.selection ++ [v] }

/-- CDK SelectionModel._unmarkSelected(value): remove the value when
present. -/
def unmarkSelected (m : SelectionModel) (v : JSV) : SelectionModel :=
  if m.isSelected v then { m with selection := m.selection.erase v } else m

/-- CDK SelectionModel.select(...values): mark each value in order.
The CDK arity assertion for multi-element batches in single mode is not
modelled; select is modelled as the sequence of markSelected calls. -/
def SelectionModel.select (m : SelectionModel) (vs : List JSV) : SelectionModel :=
  vs.foldl markSelected m

/-- CDK SelectionModel.deselect(...values): unmark each value in order. -/
def SelectionModel.deselect (m : SelectionModel) (vs : List JSV) : SelectionModel :=
  vs.foldl unmarkSelected m

/-- One child option (ListOptionDirective state): its value, selected
and disabled flags, and the selectionTimeout property (none when the
input was never set, some t after coerceNumberProperty). -/
structure ListOpt where
  value : JSV
  selected : Bool
  disabled : Bool
  selectionTimeout : Option Int
deriving DecidableEq, Repr

/-- JS truthiness of the selectionTimeout property: undefined and 0 are
falsy, every other number is truthy. -/
def timeoutTruthy : Option Int → Bool
  | none => false
  | some t => t != 0

/-- The event payload of the option state$ stream: the selected flag and
the option value at emission time. -/
structure OptionEvent where
  selected : Bool
  value : JSV
deriving DecidableEq, Repr

/-- Result of one ListOptionDirective._update call: the updated option,
the emitted events (zero or one), and whether an auto-deselect timer was
scheduled via setTimeout. -/
structure UpdateResult where
  opt : ListOpt
  events : List OptionEvent
  timer : Bool
deriving DecidableEq, Repr

/-- ListOptionDirective._update(selected): always write the flag, then
schedule a deselect timer when the timeout is truthy and the target is
selected, and emit the selection change unless a truthy timeout is
configured and the target is deselect. -/
def ListOpt.update (o : ListOpt) (target : Bool) : UpdateResult :=
  let o1 : ListOpt := { o with selected := target }
  let timer : Bool := timeoutTruthy o.selectionTimeout && target
  let emits : Bool :=
    !timeoutTruthy o.selectionTimeout || (timeoutTruthy o.selectionTimeout && target)
  { opt := o1
    events := if emits then [{ selected := target, value := o.value }] else []
    timer := timer }

/-- ListOptionDirective.select(): update towards selected. -/
def ListOpt.selectOp (o : ListOpt) : UpdateResult :=
  o.update true

/-- ListOptionDirective.deselect(): update towards deselected. -/
def ListOpt.deselectOp (o : ListOpt) : UpdateResult :=
  o.update false

/-- The value of the container value getter: a scalar JS value (possibly
undefined) or an array of JS values. -/
inductive ListValue where
  | scalar : JSV → ListValue
  | arr : List JSV → ListValue
deriving DecidableEq, Repr

/-- The SelectionListDirective value getter, reading the model: in
single selection return selected[0] (undefined when the model is empty);
otherwise, when the model has a value, return the non-nil selected
values when that filtered array is non-empty; otherwise undefined. -/
def SelectionModel.valueOf (m : SelectionModel) : ListValue :=
  if !m.multiple then ListValue.scalar (m.selection.headD JSV.undef)
  else if m.hasValue then
    let v := m.selection.filter isNonNil
    if v.length != 0 then ListValue.arr v else ListValue.scalar JSV.undef
  else ListValue.scalar JSV.undef

/-- SelectionListDirective.isSelected(value): false for nil arguments,
otherwise membership in the model. -/
def isSelectedCont (m : SelectionModel) (v : JSV) : Bool :=
  if isNil v then false else m.isSelected v

/-- The container state: the internal model, the discovered child
options in document order, and the _isContentReady flag set by
ngAfterContentInit. -/
structure SelState where
  model : SelectionModel
  options : List ListOpt
  isContentReady : Bool
deriving DecidableEq, Repr

/-- Default option used only to read list positions that are known to be
in bounds. -/
def defOpt : ListOpt :=
  { value := JSV.undef, selected := false, disabled := false, selectionTimeout := none }

/-- The container value getter, delegated to the model. -/
def SelState.value (s : SelState) : ListValue :=
  s.model.valueOf

/-- The model update performed by the per-event tap for one event, with
the single-selection reset branch unavailable: used for the events that
option.deselect() emits back into the live subscription, which always
carry selected = false and therefore never take the reset branch. -/
def handleEventNoReset (m : SelectionModel) (ev : OptionEvent) : SelectionModel :=
  if isNil ev.value then m
  else if ev.selected then markSelected m ev.value else unmarkSelected m ev.value

/-- Deselect the option at index i while the container subscription is
live: run ListOptionDirective._update(false) and feed each emitted event
(always a deselect event) to the per-event reaction. -/
def connectedDeselectAt (s : SelState) (i : Nat) : SelState :=
  match s.options.get? i with
  | none => s
  | some o =>
    let r := o.update false
    { s with options := s.options.set i r.opt
             model := r.events.foldl handleEventNoReset s.model }

/-- SelectionListDirective._getSelectedOptions() as option indices: the
positions whose option value the container currently reports selected.
The source snapshots the option objects once before iterating; indices
into the fixed options list model those references. -/
def selectedOptionIdxs (s : SelState) : List Nat :=
  (List.range s.options.length).filter
    (fun i => isSelectedCont s.model (s.options.getD i defOpt).value)

/-- SelectionListDirective._resetOptions(): deselect every snapshot
member in order, each deselection re-entering the live per-event
reaction. -/
def resetOptions (s : SelState) : SelState :=
  (selectedOptionIdxs s).foldl connectedDeselectAt s

/-- The per-event tap of ngAfterContentInit, given one option event:
ignore nil values; in single selection, when a not-yet-selected value is
being selected, first deselect every currently selected option; then add
or remove the value in the model. -/
def handleEvent (s : SelState) (ev : OptionEvent) : SelState :=
  if isNil ev.value then s
  else
    let s1 :=
      if !s.model.multiple && ev.selected && !isSelectedCont s.model ev.value then
        resetOptions s
      else s
    { s1 with model :=
        if ev.selected then markSelected s1.model ev.value
        else unmarkSelected s1.model ev.value }

/-- Run option i through _update(target) while the container
subscription is live, delivering each emitted event to the per-event
reaction. -/
def connectedUpdateAt (s : SelState) (i : Nat) (target : Bool) : SelState :=
  match s.options.get? i with
  | none => s
  | some o =>
    let r := o.update target
    r.events.foldl handleEvent { s with options := s.options.set i r.opt }

/-- SelectionListDirective._getOptionByValue(value) as an index: the
first option whose value is strictly equal to the argument. -/
def getOptionIdxByValue (s : SelState) (v : JSV) : Option Nat :=
  s.options.findIdx? (fun o => o.value == v)

/-- SelectionListDirective.select(value) for a scalar value: find the
matching option and call its select(); nothing happens without a
match. -/
def selectValue (s : SelState) (v : JSV) : SelState :=
  match getOptionIdxByValue s v with
  | none => s
  | some i => connectedUpdateAt s i true

/-- SelectionListDirective.deselect(value): find the matching option and
call its deselect(); nothing happens without a match. -/
def deselectValue (s : SelState) (v : JSV) : SelState :=
  match getOptionIdxByValue s v with
  | none => s
  | some i => connectedUpdateAt s i false

/-- The argument of writeValue and select: a scalar value or an
array. -/
inductive WriteArg where
  | scalar : JSV → WriteArg
  | arr : List JSV → WriteArg
deriving DecidableEq, Repr

/-- The values carried by a writeValue argument, as the list the spread
call _model.select(...value) receives (a scalar becomes the one-element
argument list). -/
def argToList : WriteArg → List JSV
  | WriteArg.scalar v => [v]
  | WriteArg.arr vs => vs

/-- SelectionListDirective.select(value | value[]): per element for an
array, otherwise once. -/
def selectArg (s : SelState) : WriteArg → SelState
  | WriteArg.scalar v => selectValue s v
  | WriteArg.arr vs => vs.foldl selectValue s

/-- SelectionListDirective.writeValue(value): before content is ready,
select directly into the model; afterwards reset every selected option
and go through the normal select() path. -/
def SelState.writeValue (s : SelState) (arg : WriteArg) : SelState :=
  if !s.isContentReady then
    { s with model := s.model.select (argToList arg) }
  else
    selectArg (resetOptions s) arg

/-- SelectionListDirective._preselect(options): when the model is empty,
select the value of every option that is already marked selected and has
a non-nil value, in document order. -/
def preselect (opts : List ListOpt) (m : SelectionModel) : SelectionModel :=
  if m.isEmpty then
    opts.foldl
      (fun acc o => if !isNil o.value && o.selected then markSelected acc o.value else acc)
      m
  else m

/-- One option of SelectionListDirective._syncWithSelectionModel: call
select() when the model has the value but the option flag is off, and
call select() again when the model lacks the value but the (possibly
just updated) option flag is on. -/
def syncOne (m : SelectionModel) (o : ListOpt) : ListOpt × List OptionEvent :=
  let step1 : ListOpt × List OptionEvent :=
    if isSelectedCont m o.value && !o.selected then
      let r := o.update true
      (r.opt, r.events)
    else (o, [])
  if !isSelectedCont m step1.1.value && step1.1.selected then
    let r := step1.1.update true
    (r.opt, step1.2 ++ r.events)
  else step1

/-- From utils/tap-once.ts: the guard !options || options.withCondition(payload)
of the tapOnce operator. -/
def condApply {α : Type} (cond : Option (α → Bool)) (payload : α) : Bool :=
  match cond with
  | none => true
  | some c => c payload

/-- The tapOnce operator run over a finite list of payloads: starting
from the first-flag, invoke the callback on a payload exactly when the
flag is still set and the optional condition passes, then clear the
flag.  Returns the final state and the payloads the callback ran on. -/
def tapOnceRun {α σ : Type} (fn : α → σ → σ) (cond : Option (α → Bool)) :
    Bool → σ → List α → σ × List α
  | _, s, [] => (s, [])
  | first, s, p :: rest =>
    if first && condApply cond p then
      let r := tapOnceRun fn cond false (fn p s) rest
      (r.1, p :: r.2)
    else
      tapOnceRun fn cond first s rest

/-- The pre-seeding prefix of the child-discovery pipeline: the emitted
option lists, paired with their emission index, pass the length > 0
filter and then tapOnce(_preselect).  Returns the resulting model and
the emissions on which _preselect ran.  The later pipeline stages do not
influence which emissions reach _preselect, so they are not part of this
definition. -/
def preseedEmissions (ems : List (List ListOpt)) (m0 : SelectionModel) :
    SelectionModel × List (Nat × List ListOpt) :=
  tapOnceRun (fun p m => preselect p.2 m) none true m0
    (ems.enum.filter (fun p => p.2.length != 0))

/-- Modelled from the spec words of claim C5: the index of the first
emission whose option list is non-empty, counting from i. -/
def firstQualifyingIdxFrom (i : Nat) : List (List ListOpt) → Option Nat
  | [] => none
  | e :: rest => if e.length != 0 then some i else firstQualifyingIdxFrom (i + 1) rest

/-- The index of the first non-empty emission, when one exists. -/
def firstQualifyingIdx (ems : List (List ListOpt)) : Option Nat :=
  firstQualifyingIdxFrom 0 ems

/-- Modelled from the spec words of claim C5: the values pre-seeding is
expected to add, in document order — the values of the options whose own
selected flag is already true and whose value is non-nil (the non-nil
restriction is the amendment). -/
def preseedValues (opts : List ListOpt) : List JSV :=
  (opts.filter (fun o => !isNil o.value && o.selected)).map ListOpt.value

/-- Modelled from the spec words of claim C2: single mode yields the
sole selected value or undefined when none is selected; multi mode
yields the non-nil selected values as an array, or undefined whenever
that filtered array would be empty. -/
def valueSpec (m : SelectionModel) : ListValue :=
  if m.multiple = false then
    match m.selection with
    | [] => ListValue.scalar JSV.undef
    | v :: _ => ListValue.scalar v
  else
    let vs := m.selection.filter isNonNil
    if vs = [] then ListValue.scalar JSV.undef else ListValue.arr vs

/-- The first emission of the child-discovery reaction (the startWith
emission of ngAfterContentInit): when options exist, pre-seed via the
tapOnce operator, then run the model to view sync over every option.
The events the sync emits are dropped: the switchMap subscription to the
option streams is only installed after this tap runs, so no handler
observes them on the first emission. -/
def discoveryFirst (s : SelState) : SelState :=
  if s.options.length = 0 then s
  else
    let m1 := preselect s.options s.model
    { s with model := m1, options := s.options.map (fun o => (syncOne m1 o).1) }

/-!  Theorems about the claims.  -/

/-- The failing input of claim C1: a single-selection container whose
first discovery pass sees two options, both already marked selected in
markup, with an empty model. -/
def s1bug : SelState :=
  { model := { multiple := false, selection := [] }
    options := [{ value := JSV.num 1, selected := true, disabled := false, selectionTimeout := none },
                { value := JSV.num 2, selected := true, disabled := false, selectionTimeout := none }]
    isContentReady := true }

/-- Claim C1: after every reconciliation pass of a single-selection
container, at most one option has selected = true.  The code violates
this: on the input s1bug the discovery pass leaves both options with
selected = true (the model holds only the value 2), because the second
branch of the model to view sync calls select() instead of deselect(). -/
theorem C1_single_exclusivity_eval :
    (discoveryFirst s1bug).model.multiple = false ∧
    (discoveryFirst s1bug).options.countP (fun o => o.selected) = 2 ∧
    (discoveryFirst s1bug).model.selection = [JSV.num 2] := by
  decide

/-- Claim C2: the derived value is the sole selected value or undefined
in single mode, and in multi mode the non-nil selected values as an
array, or undefined when that array would be empty — never an empty
array. -/
theorem C2_value_computation :
    ∀ m : SelectionModel, m.valueOf = valueSpec m ∧ m.valueOf ≠ ListValue.arr [] := by
  intro m
  obtain ⟨mult, sel⟩ := m
  cases mult
  · cases sel <;>
      simp [SelectionModel.valueOf, valueSpec]
  · cases sel with
    | nil =>
      simp [SelectionModel.valueOf, valueSpec, SelectionModel.hasValue, SelectionModel.isEmpty]
    | cons a tl =>
      rcases hf : (a :: tl).filter isNonNil with _ | ⟨b, bs⟩ <;>
        simp [SelectionModel.valueOf, valueSpec, SelectionModel.hasValue,
              SelectionModel.isEmpty, hf]

/-- The concrete option refuting claim C3 as stated: a configured
selectionTimeout of -1, which is not positive but is truthy in JS. -/
def oNeg : ListOpt :=
  { value := JSV.num 1, selected := true, disabled := false, selectionTimeout := some (-1) }

/-- Claim C3 counterexample: oNeg has a configured but not positive
selectionTimeout, yet its deselect transition emits no event (the claim
as stated requires an event for both transitions whenever no positive
timeout is configured).  The flag still flips to false. -/
theorem C3_counterexample :
    oNeg.selectionTimeout = some (-1) ∧ ¬((0 : Int) < -1) ∧
    (oNeg.update false).events = [] ∧ (oNeg.update false).opt.selected = false := by
  decide

/-- Claim C3 as amended: replace positive by nonzero (JS truthiness).
Every update writes the target flag and keeps the value; it emits the
selection change exactly when no nonzero timeout is configured or the
target is select, and schedules the auto-deselect timer exactly when a
nonzero timeout is configured and the target is select. -/
theorem C3_update_emission :
    ∀ (o : ListOpt) (target : Bool),
      (o.update target).opt.selected = target ∧
      (o.update target).opt.value = o.value ∧
      ((o.update target).events =
        if !timeoutTruthy o.selectionTimeout || target then
          [{ selected := target, value := o.value }] else []) ∧
      (o.update target).timer = (timeoutTruthy o.selectionTimeout && target) := by
  intro o target
  cases h : timeoutTruthy o.selectionTimeout <;> cases target <;>
    simp [ListOpt.update, h]

/-- Claim C4: in the model to view sync step the two mismatch branches
perform the identical action — an option whose model membership and own
flag disagree goes through select() (that is, update towards selected),
and a matching option is left alone with no event. -/
theorem C4_sync_branches :
    ∀ (m : SelectionModel) (o : ListOpt),
      syncOne m o =
        if isSelectedCont m o.value = o.selected then (o, ([] : List OptionEvent))
        else ((o.update true).opt, (o.update true).events) := by
  intro m o
  cases hs : isSelectedCont m o.value <;> cases ho : o.selected <;>
    simp [syncOne, hs, ho, ListOpt.update]

/-- Claim C9: isSelected returns false for both nil arguments whatever
the model holds; the model is never consulted. -/
theorem C9_isSelected_nil :
    ∀ m : SelectionModel,
      isSelectedCont m JSV.null = false ∧ isSelectedCont m JSV.undef = false := by
  intro m
  simp [isSelectedCont, isNil]

/-- The state for the concrete part of claim C10: a single-selection
container before child discovery. -/
def s10pre : SelState :=
  { model := { multiple := false, selection := [] }, options := [], isContentReady := false }

/-- Claim C10: single mode performs no nil filtering — the value getter
returns the first model element as-is, so a null placed into the model
by writeValue before discovery surfaces as null, not undefined, while
multi mode filters the same null away. -/
theorem C10_single_no_nil_filter :
    (∀ sel : List JSV,
      (SelectionModel.mk false sel).valueOf = ListValue.scalar (sel.headD JSV.undef)) ∧
    (s10pre.writeValue (WriteArg.scalar JSV.null)).value = ListValue.scalar JSV.null ∧
    ListValue.scalar JSV.null ≠ ListValue.scalar JSV.undef ∧
    (SelectionModel.mk true [JSV.null]).valueOf = ListValue.scalar JSV.undef := by
  refine ⟨?_, by decide, by decide, by decide⟩
  intro sel
  simp [SelectionModel.valueOf]

/-!  Helper lemmas for the pre-seeding pipeline (claim C5).  -/

lemma tapOnceRun_false {α σ : Type} (fn : α → σ → σ) (cond : Option (α → Bool))
    (s : σ) (l : List α) : tapOnceRun fn cond false s l = (s, []) := by
  induction l with
  | nil => rfl
  | cons p rest ih => simp [tapOnceRun, ih]

lemma tapOnceRun_none_first {α σ : Type} (fn : α → σ → σ) (s : σ) (l : List α) :
    tapOnceRun fn none true s l =
      match l with
      | [] => (s, [])
      | p :: rest => (fn p s, [p]) := by
  cases l with
  | nil => rfl
  | cons p rest => simp [tapOnceRun, condApply, tapOnceRun_false]

lemma enumFrom_filter_head (ems : List (List ListOpt)) (i : Nat) :
    ((List.enumFrom i ems).filter (fun p => p.2.length != 0)).head?.map Prod.fst =
      firstQualifyingIdxFrom i ems := by
  induction ems generalizing i with
  | nil => rfl
  | cons e rest ih =>
    rw [List.enumFrom_cons, List.filter_cons]
    cases h : e.length != 0 with
    | false => simpa [h, firstQualifyingIdxFrom] using ih (i + 1)
    | true => simp [h, firstQualifyingIdxFrom]

lemma preselect_fold_eq (opts : List ListOpt) (m : SelectionModel) :
    opts.foldl
      (fun acc o => if !isNil o.value && o.selected then markSelected acc o.value else acc) m =
      (preseedValues opts).foldl markSelected m := by
  induction opts generalizing m with
  | nil => rfl
  | cons o rest ih =>
    rw [List.foldl_cons]
    cases h : (!isNil o.value && o.selected) with
    | false =>
      have hv : preseedValues (o :: rest) = preseedValues rest := by
        simp [preseedValues, List.filter_cons, h]
      rw [hv]
      exact ih m
    | true =>
      have hv : preseedValues (o :: rest) = o.value :: preseedValues rest := by
        simp [preseedValues, List.filter_cons, h]
      rw [hv, List.foldl_cons]
      exact ih (markSelected m o.value)

/-- The concrete option refuting claim C5 as stated: an option whose
selected flag is true but whose value is nil. -/
def optNilSel : ListOpt :=
  { value := JSV.null, selected := true, disabled := false, selectionTimeout := none }

/-- An empty single-selection model. -/
def emptySingleModel : SelectionModel :=
  { multiple := false, selection := [] }

/-- Claim C5 counterexample: on the first non-empty emission with an
empty model, pre-seeding does not add the value of a selected option
whose value is nil — the model stays empty, while the claim as stated
requires the value of every selected option to be added (selecting it
would put null into the model). -/
theorem C5_counterexample :
    optNilSel.selected = true ∧ emptySingleModel.isEmpty = true ∧
    (preselect [optNilSel] emptySingleModel).selection = [] ∧
    (emptySingleModel.select [optNilSel.value]).selection = [JSV.null] := by
  decide

/-- Claim C5 as amended: restrict the added values to the selected
options with non-nil values.  Pre-seeding runs exactly on the first
non-empty emission of the child collection when there is one (so at
most once over the lifetime, whatever comes later), and one run adds,
in document order, the value of every already-selected option with a
non-nil value — only when the model is empty at that moment. -/
theorem C5_preseed_once :
    (∀ (ems : List (List ListOpt)) (m0 : SelectionModel),
      (preseedEmissions ems m0).2.map Prod.fst = (firstQualifyingIdx ems).toList) ∧
    (∀ (opts : List ListOpt) (m : SelectionModel),
      preselect opts m = if m.isEmpty then m.select (preseedValues opts) else m) := by
  constructor
  · intro ems m0
    have h := enumFrom_filter_head ems 0
    unfold preseedEmissions firstQualifyingIdx
    rw [show ems.enum = List.enumFrom 0 ems from rfl, tapOnceRun_none_first]
    cases hf : (List.enumFrom 0 ems).filter (fun p => p.2.length != 0) with
    | nil =>
      rw [hf] at h
      simp at h
      simp [← h]
    | cons p rest =>
      rw [hf] at h
      simp at h
      simp [← h]
  · intro opts m
    unfold preselect SelectionModel.select
    cases he : m.isEmpty with
    | false => rfl
    | true => exact preselect_fold_eq opts m

/-!  Helper lemmas for the per-event reaction (claim C6).  -/

lemma markSelected_multiple (m : SelectionModel) (v : JSV) :
    (markSelected m v).multiple = m.multiple := by
  unfold markSelected unmarkAll
  dsimp only
  split_ifs <;> rfl

lemma unmarkSelected_multiple (m : SelectionModel) (v : JSV) :
    (unmarkSelected m v).multiple = m.multiple := by
  unfold unmarkSelected
  split <;> rfl

lemma handleEventNoReset_multiple (m : SelectionModel) (e : OptionEvent) :
    (handleEventNoReset m e).multiple = m.multiple := by
  unfold handleEventNoReset
  split
  · rfl
  · split
    · exact markSelected_multiple m e.value
    · exact unmarkSelected_multiple m e.value

lemma foldl_hENR_multiple (evs : List OptionEvent) (m : SelectionModel) :
    (evs.foldl handleEventNoReset m).multiple = m.multiple := by
  induction evs generalizing m with
  | nil => rfl
  | cons e rest ih => rw [List.foldl_cons, ih]; exact handleEventNoReset_multiple m e

lemma unmarkSelected_not_selected (m : SelectionModel) (v w : JSV)
    (h : m.isSelected v = false) : (unmarkSelected m w).isSelected v = false := by
  unfold unmarkSelected
  split
  · simp only [SelectionModel.isSelected, decide_eq_false_iff_not] at h ⊢
    intro hmem
    exact h (List.mem_of_mem_erase hmem)
  · exact h

lemma handleEventNoReset_not_selected (m : SelectionModel) (e : OptionEvent) (v : JSV)
    (hsel : e.selected = false) (h : m.isSelected v = false) :
    (handleEventNoReset m e).isSelected v = false := by
  unfold handleEventNoReset
  rw [hsel]
  split
  · exact h
  · exact unmarkSelected_not_selected m v e.value h

lemma update_false_events (o : ListOpt) :
    ∀ e ∈ (o.update false).events, e.selected = false := by
  intro e he
  simp only [ListOpt.update] at he
  split at he
  · simp at he
    rw [he]
  · simp at he

lemma foldl_hENR_not_selected (evs : List OptionEvent) (m : SelectionModel) (v : JSV)
    (hall : ∀ e ∈ evs, e.selected = false) (h : m.isSelected v = false) :
    (evs.foldl handleEventNoReset m).isSelected v = false := by
  induction evs generalizing m with
  | nil => exact h
  | cons e rest ih =>
    rw [List.foldl_cons]
    exact ih _ (fun x hx => hall x (List.mem_cons_of_mem e hx))
      (handleEventNoReset_not_selected m e v (hall e (List.mem_cons_self e rest)) h)

lemma cda_multiple (s : SelState) (i : Nat) :
    (connectedDeselectAt s i).model.multiple = s.model.multiple := by
  unfold connectedDeselectAt
  cases hg : s.options.get? i with
  | none => rfl
  | some o => exact foldl_hENR_multiple _ _

lemma cda_not_selected (s : SelState) (i : Nat) (v : JSV)
    (h : s.model.isSelected v = false) :
    (connectedDeselectAt s i).model.isSelected v = false := by
  unfold connectedDeselectAt
  cases hg : s.options.get? i with
  | none => exact h
  | some o => exact foldl_hENR_not_selected _ _ _ (update_false_events o) h

lemma cda_length (s : SelState) (i : Nat) :
    (connectedDeselectAt s i).options.length = s.options.length := by
  unfold connectedDeselectAt
  cases hg : s.options.get? i with
  | none => rfl
  | some o => exact List.length_set s.options i _

lemma cda_get_other (s : SelState) {i j : Nat} (hne : j ≠ i) :
    (connectedDeselectAt s i).options.get? j = s.options.get? j := by
  unfold connectedDeselectAt
  cases hg : s.options.get? i with
  | none => rfl
  | some o => exact List.get?_set_ne _ _ (Ne.symm hne)

lemma cda_get_self (s : SelState) (i : Nat) (o : ListOpt)
    (hg : s.options.get? i = some o) :
    (connectedDeselectAt s i).options.get? i = some ((o.update false).opt) := by
  unfold connectedDeselectAt
  rw [hg]
  exact List.get?_set_eq_of_lt _ (List.get?_eq_some.mp hg).1

lemma fold_cda_multiple (idxs : List Nat) (s : SelState) :
    ((idxs.foldl connectedDeselectAt s).model.multiple = s.model.multiple) := by
  induction idxs generalizing s with
  | nil => rfl
  | cons a rest ih => rw [List.foldl_cons, ih]; exact cda_multiple s a

lemma fold_cda_not_selected (idxs : List Nat) (s : SelState) (v : JSV)
    (h : s.model.isSelected v = false) :
    ((idxs.foldl connectedDeselectAt s).model.isSelected v = false) := by
  induction idxs generalizing s with
  | nil => exact h
  | cons a rest ih => rw [List.foldl_cons]; exact ih _ (cda_not_selected s a v h)

lemma fold_cda_length (idxs : List Nat) (s : SelState) :
    ((idxs.foldl connectedDeselectAt s).options.length = s.options.length) := by
  induction idxs generalizing s with
  | nil => rfl
  | cons a rest ih => rw [List.foldl_cons, ih]; exact cda_length s a

lemma fold_cda_get_nomem (idxs : List Nat) (s : SelState) (j : Nat) (h : j ∉ idxs) :
    ((idxs.foldl connectedDeselectAt s).options.get? j) = s.options.get? j := by
  induction idxs generalizing s with
  | nil => rfl
  | cons a rest ih =>
    rw [List.foldl_cons, ih _ (fun hm => h (List.mem_cons_of_mem a hm))]
    exact cda_get_other s (fun he => h (he ▸ List.mem_cons_self a rest))

lemma fold_cda_selected_false (idxs : List Nat) (s : SelState) (i : Nat)
    (hnd : idxs.Nodup) (hmem : i ∈ idxs) (hlt : i < s.options.length) :
    (((idxs.foldl connectedDeselectAt s).options.get? i).map ListOpt.selected) = some false := by
  induction idxs generalizing s with
  | nil => cases hmem
  | cons a rest ih =>
    rw [List.foldl_cons]
    rcases List.nodup_cons.mp hnd with ⟨hna, hndr⟩
    rcases List.mem_cons.mp hmem with rfl | hmr
    · cases hg : s.options.get? i with
      | none =>
        rw [List.get?_eq_none] at hg
        omega
      | some o =>
        rw [fold_cda_get_nomem rest _ i hna, cda_get_self s i o hg]
        rfl
    · exact ih _ hndr hmr (by rw [cda_length]; exact hlt)

lemma resetOptions_multiple (s : SelState) :
    (resetOptions s).model.multiple = s.model.multiple :=
  fold_cda_multiple _ s

lemma resetOptions_not_selected (s : SelState) (v : JSV)
    (h : s.model.isSelected v = false) :
    (resetOptions s).model.isSelected v = false :=
  fold_cda_not_selected _ s v h

lemma resetOptions_selected_false (s : SelState) (i : Nat)
    (hi : i < s.options.length)
    (hsel : isSelectedCont s.model (s.options.getD i defOpt).value = true) :
    (((resetOptions s).options.get? i).map ListOpt.selected) = some false := by
  apply fold_cda_selected_false _ s i _ _ hi
  · exact List.Nodup.filter _ (List.nodup_range _)
  · unfold selectedOptionIdxs
    rw [List.mem_filter]
    exact ⟨List.mem_range.mpr hi, hsel⟩

lemma markSelected_single_fresh (m : SelectionModel) (v : JSV)
    (hm : m.multiple = false) (hs : m.isSelected v = false) :
    (markSelected m v).selection = [v] := by
  unfold markSelected unmarkAll
  rw [hs, hm]
  simp [SelectionModel.isSelected]

/-- Claim C6: the per-event reaction ignores nil-valued events; on a
single-selection select of a value the model does not yet hold, every
option the container currently reports selected is deselected before the
value is recorded, after which the model holds exactly that value; in
every other non-nil case the reaction only adds or removes the event
value in the model, touching no option. -/
theorem C6_event_reaction :
    (∀ (s : SelState) (b : Bool),
      handleEvent s { selected := b, value := JSV.null } = s ∧
      handleEvent s { selected := b, value := JSV.undef } = s) ∧
    (∀ (s : SelState) (ev : OptionEvent),
      isNil ev.value = false → s.model.multiple = false → ev.selected = true →
      isSelectedCont s.model ev.value = false →
      (handleEvent s ev).model.selection = [ev.value] ∧
      (∀ i : Nat, i < s.options.length →
        isSelectedCont s.model (s.options.getD i defOpt).value = true →
        ((handleEvent s ev).options.get? i).map ListOpt.selected = some false)) ∧
    (∀ (s : SelState) (ev : OptionEvent),
      isNil ev.value = false →
      (!s.model.multiple && ev.selected && !isSelectedCont s.model ev.value) = false →
      handleEvent s ev =
        { s with model :=
            if ev.selected then markSelected s.model ev.value
            else unmarkSelected s.model ev.value }) := by
  refine ⟨fun s b => ⟨rfl, rfl⟩, fun s ev h1 hm hsel hns => ?_, fun s ev h1 hg => ?_⟩
  · have hres : handleEvent s ev =
        { resetOptions s with model := markSelected (resetOptions s).model ev.value } := by
      unfold handleEvent
      rw [h1, hm, hsel, hns]
      rfl
    have hbase : s.model.isSelected ev.value = false := by
      simpa [isSelectedCont, h1] using hns
    constructor
    · rw [hres]
      exact markSelected_single_fresh _ _
        (by rw [resetOptions_multiple]; exact hm)
        (resetOptions_not_selected s ev.value hbase)
    · intro i hi hsel2
      rw [hres]
      exact resetOptions_selected_false s i hi hsel2
  · unfold handleEvent
    rw [h1, hg]
    rfl

/-- The concrete state for the C6 witness: a single-selection container
with model value 1 and option 1 selected, receiving a select event for
value 2. -/
def s6state : SelState :=
  { model := { multiple := false, selection := [JSV.num 1] }
    options := [{ value := JSV.num 1, selected := true, disabled := false, selectionTimeout := none },
                { value := JSV.num 2, selected := false, disabled := false, selectionTimeout := none }]
    isContentReady := true }

/-- Witness for claim C6 at a concrete input: after a select event for
the new value 2 the model holds exactly 2 and the previously selected
option at index 0 has been deselected. -/
theorem C6_event_reaction_witness :
    (handleEvent s6state { selected := true, value := JSV.num 2 }).model.selection =
      [JSV.num 2] ∧
    ((handleEvent s6state { selected := true, value := JSV.num 2 }).options.get? 0).map
      ListOpt.selected = some false := by
  have h := C6_event_reaction.2.1 s6state { selected := true, value := JSV.num 2 }
    (by decide) (by decide) (by decide) (by decide)
  exact ⟨h.1, h.2 0 (by decide) (by decide)⟩

/-- The concrete state for the writeValue scenario of claim C7: a
multi-selection container with discovered children 1, 2, 3 where option
1 is selected and recorded. -/
def s7state : SelState :=
  { model := { multiple := true, selection := [JSV.num 1] }
    options := [{ value := JSV.num 1, selected := true, disabled := false, selectionTimeout := none },
                { value := JSV.num 2, selected := false, disabled := false, selectionTimeout := none },
                { value := JSV.num 3, selected := false, disabled := false, selectionTimeout := none }]
    isContentReady := true }

/-- Claim C7: before child discovery, writeValue selects the given
value(s) directly into the model and touches no option; after discovery
it first deselects every currently selected option and then routes the
value(s) through the normal select() path; on the concrete multi
container s7state, writeValue([]) followed by writeValue([2,3]) yields
value = [2,3] with no other option selected. -/
theorem C7_writeValue :
    (∀ (s : SelState) (arg : WriteArg), s.isContentReady = false →
      s.writeValue arg = { s with model := s.model.select (argToList arg) }) ∧
    (∀ (s : SelState) (arg : WriteArg), s.isContentReady = true →
      s.writeValue arg = selectArg (resetOptions s) arg) ∧
    ((s7state.writeValue (WriteArg.arr [])).writeValue
        (WriteArg.arr [JSV.num 2, JSV.num 3])).value = ListValue.arr [JSV.num 2, JSV.num 3] ∧
    ((s7state.writeValue (WriteArg.arr [])).writeValue
        (WriteArg.arr [JSV.num 2, JSV.num 3])).options.map ListOpt.selected =
      [false, true, true] := by
  refine ⟨fun s arg h => ?_, fun s arg h => ?_, by decide, by decide⟩
  · unfold SelState.writeValue
    rw [h]
    rfl
  · unfold SelState.writeValue
    rw [h]
    rfl

/-- Witness for claim C7 at a concrete input: a container before
discovery takes writeValue(5) straight into its model. -/
theorem C7_writeValue_witness :
    s10pre.isContentReady = false ∧
    s10pre.writeValue (WriteArg.scalar (JSV.num 5)) =
      { s10pre with model := s10pre.model.select [JSV.num 5] } := by
  exact ⟨rfl, C7_writeValue.1 s10pre (WriteArg.scalar (JSV.num 5)) rfl⟩

/-- Claim C8: select and deselect are total — for a value no option
carries (by strict equality), both are silent no-ops leaving the whole
state unchanged; with a first matching index i they run that option
through update; an array argument folds the scalar path over its
elements. -/
theorem C8_select_total :
    (∀ (s : SelState) (v : JSV),
      (∀ o ∈ s.options, (o.value == v) = false) →
      selectValue s v = s ∧ deselectValue s v = s) ∧
    (∀ (s : SelState) (v : JSV) (i : Nat),
      getOptionIdxByValue s v = some i →
      selectValue s v = connectedUpdateAt s i true ∧
      deselectValue s v = connectedUpdateAt s i false) ∧
    (∀ (s : SelState) (vs : List JSV),
      selectArg s (WriteArg.arr vs) = vs.foldl selectValue s) := by
  refine ⟨fun s v h => ?_, fun s v i h => ?_, fun s vs => rfl⟩
  · have hn : getOptionIdxByValue s v = none := by
      unfold getOptionIdxByValue
      exact List.findIdx?_eq_none_iff.mpr h
    constructor
    · unfold selectValue
      rw [hn]
    · unfold deselectValue
      rw [hn]
  · constructor
    · unfold selectValue
      rw [h]
    · unfold deselectValue
      rw [h]

/-- The concrete state for the C8 witness: one option with value 1. -/
def s8state : SelState :=
  { model := { multiple := false, selection := [] }
    options := [{ value := JSV.num 1, selected := false, disabled := false, selectionTimeout := none }]
    isContentReady := true }

/-- Witness for claim C8 at a concrete input: selecting or deselecting
the absent value 5 changes nothing. -/
theorem C8_select_total_witness :
    selectValue s8state (JSV.num 5) = s8state ∧
    deselectValue s8state (JSV.num 5) = s8state := by
  exact C8_select_total.1 s8state (JSV.num 5) (by decide)
